import Mathlib

/-!
Verification of the fw-iot-publisher connectivity layer: a shallow
embedding of the CoAP (datagram) backend and the MQTT (stream) backend,
with theorems about token correlation, address resolution, buffer
bounds, event dispatch and the connect handshake.

External calls (sockets, the resolver, the CoAP/MQTT libraries) are
modelled by explicit parameters carrying their outcomes; module-static
state is threaded explicitly.  Machine integers are Nat/Int with `% 2^16`
where the C uses `u16_t`.
-/

namespace FwIotPub

/-! ### errno and socket constants (Zephyr minimal libc values) -/

def ENOENT : Int := 2
/-- The errno value EIO. -/
def EIOerr : Int := 5
def EAGAIN : Int := 11
def EWOULDBLOCK : Int := EAGAIN
def ENOMEM : Int := 12
def ESOCKTNOSUPPORT : Int := 108
def EMSGSIZE : Int := 122

def AF_INET : Nat := 1
def AF_INET6 : Nat := 2

/-- sizeof(struct sockaddr_in). -/
def sizeof_sockaddr_in : Nat := 16
/-- sizeof(struct sockaddr_in6). -/
def sizeof_sockaddr_in6 : Nat := 28

/-! ### Events

The event enums from coap_backend.h (`enum coap_backend_evt_type`) and
mqtt_backend.h (`enum mqtt_backend_evt_type`). -/

inductive CoapEvt where
  | connected
  | ready
  | disconnected
  | dataReceived
  | error
  | fotaDone
  deriving DecidableEq, Repr

inductive MqttEvt where
  | connected
  | ready
  | disconnected
  | dataReceived
  | fotaDone
  deriving DecidableEq, Repr

/-- Cloud-API events used by the plugin-registered (`CONFIG_CLOUD_API`)
variant of both backends. -/
inductive CloudEvt where
  | connected
  | ready
  | disconnected
  | dataReceived
  | error
  deriving DecidableEq, Repr

/-! ### CoAP backend state (module statics of `coap_backend.c`) -/

/-- A resolved socket address, abstracting `struct sockaddr_storage`:
the family tag plus the raw address payload. -/
structure ResolvedAddr where
  family : Nat
  addr : Nat
  port : Nat
  deriving DecidableEq, Repr

/-- The module-static state of the datagram backend: the 16-bit
`next_token` counter, whether `module_evt_handler` is non-NULL, and the
resolved `host_addr`. -/
structure CoapState where
  nextToken : Nat
  observer : Bool
  host : Option ResolvedAddr
  deriving DecidableEq, Repr

/-- State at program start: statics zero-initialized. -/
def coapState0 : CoapState :=
  { nextToken := 0, observer := false, host := none }

/-- `coap_backend_notify_event`: deliver the event to the single
registered observer; a silent no-op when `module_evt_handler` is NULL. -/
def coap_backend_notify_event (observer : Bool) (e : CoapEvt) : List CoapEvt :=
  if observer then [e] else []

/-! ### Resolver -/

/-- One `struct addrinfo` candidate returned by `getaddrinfo`. -/
structure Candidate where
  family : Nat
  addrlen : Nat
  addr : Nat
  deriving DecidableEq, Repr

/-- `server_resolve` in `coap_backend.c`: on lookup failure return
`-EIO`; on a NULL result return `-ENOENT`; otherwise take the FIRST
result unconditionally and store it as an IPv4 address. -/
def server_resolve (port : Nat) (lookup : Except Int (List Candidate)) :
    Int × Option ResolvedAddr :=
  match lookup with
  | .error _ => (-EIOerr, none)
  | .ok [] => (-ENOENT, none)
  | .ok (c :: _) =>
      (0, some { family := AF_INET, addr := c.addr, port := port })

/-- `broker_init` in `mqtt_backend.c`.  After a successful lookup the
while loop inspects a candidate: an IPv4 match or an IPv6 match sets the
broker address and breaks; otherwise the loop advances
(`addr = addr->ai_next`) and then hits an unconditional `break`, so only
the first candidate is ever examined.  The function returns the
`getaddrinfo` error code, which is 0 whenever the lookup itself
succeeded, whether or not any candidate matched. -/
def broker_init (family : Nat) (port : Nat)
    (lookup : Except Int (List Candidate)) : Int × Option ResolvedAddr :=
  match lookup with
  | .error e => (e, none)
  | .ok cands =>
      match cands with
      | [] => (0, none)
      | c :: _ =>
          if c.addrlen = sizeof_sockaddr_in ∧ family = AF_INET then
            (0, some { family := AF_INET, addr := c.addr, port := port })
          else if c.addrlen = sizeof_sockaddr_in6 ∧ family = AF_INET6 then
            (0, some { family := AF_INET6, addr := c.addr, port := port })
          else
            (0, none)

/-! ### CoAP wire codec and backend operations -/

inductive CoapType where
  | con
  | nonCon
  deriving DecidableEq, Repr

/-- CoAP PUT method code. -/
def COAP_METHOD_PUT : Nat := 3

/-- An outbound CoAP packet as assembled into the tx buffer: version,
type, token bytes, code, message id, the URI-path option contents and
the payload appended after the payload marker. -/
structure CoapPacket where
  version : Nat
  ctype : CoapType
  token : List Nat
  code : Nat
  msgId : Nat
  uriPath : List Nat
  payload : List Nat
  deriving DecidableEq, Repr

/-- The two bytes of a u16 value as laid out in memory
(little-endian), as read by `(u8_t *)&next_token`. -/
def u16Bytes (t : Nat) : List Nat := [t % 256, t / 256 % 256]

/-- Result of a CoAP backend call that builds and sends a packet:
return code, updated module state, and the packet that was constructed
(none when `coap_packet_init` itself failed). -/
structure CoapCallOut where
  ret : Int
  st : CoapState
  pkt : Option CoapPacket
  deriving DecidableEq, Repr

/-- `coap_backend_ping`: reset `next_token` to 0 FIRST, then build an
empty confirmable message (type CON, zero-length token, code 0) and
send it.  `initRes` is the outcome of `coap_packet_init`, `sendRes` of
`send`; `errnoVal` is errno after a failed send. -/
def coap_backend_ping (st : CoapState) (initRes : Int) (sendRes : Int)
    (errnoVal : Int) (msgId : Nat) : CoapCallOut :=
  let st1 := { st with nextToken := 0 }
  if initRes < 0 then { ret := initRes, st := st1, pkt := none }
  else
    let ping : CoapPacket :=
      { version := 1, ctype := .con, token := [], code := 0, msgId := msgId,
        uriPath := [], payload := [] }
    if sendRes < 0 then { ret := -errnoVal, st := st1, pkt := some ping }
    else { ret := 0, st := st1, pkt := some ping }

/-- `coap_backend_send`: increment `next_token` FIRST (u16, wraps mod
2^16), then build a non-confirmable PUT request carrying the two token
bytes, append the URI-path option with the configured resource, the
payload marker and the payload, then send.  Each library step's
outcome is a parameter. -/
def coap_backend_send (st : CoapState) (txData : List Nat)
    (resource : List Nat) (initRes optRes markerRes payloadRes sendRes : Int)
    (errnoVal : Int) (msgId : Nat) : CoapCallOut :=
  let tok := (st.nextToken + 1) % 65536
  let st1 := { st with nextToken := tok }
  if initRes < 0 then { ret := initRes, st := st1, pkt := none }
  else
    let req0 : CoapPacket :=
      { version := 1, ctype := .nonCon, token := u16Bytes tok,
        code := COAP_METHOD_PUT, msgId := msgId, uriPath := [], payload := [] }
    if optRes < 0 then { ret := optRes, st := st1, pkt := some req0 }
    else
      let req1 := { req0 with uriPath := resource }
      if markerRes < 0 then { ret := markerRes, st := st1, pkt := some req1 }
      else if payloadRes < 0 then { ret := payloadRes, st := st1, pkt := some req1 }
      else
        let req2 := { req1 with payload := txData }
        if sendRes < 0 then { ret := -errnoVal, st := st1, pkt := some req2 }
        else { ret := 0, st := st1, pkt := some req2 }

/-- A successfully parsed inbound CoAP datagram:
token bytes, payload view and response code. -/
structure ParsedMsg where
  token : List Nat
  payload : List Nat
  code : Nat
  deriving DecidableEq, Repr

/-- Byte `i` of the 8-byte local `token` buffer after
`coap_header_get_token` wrote the message's `tok.length` token bytes
into it: within the token it is the token byte, beyond it the stale
(uninitialized) stack contents remain. -/
def tokenBufByte (tok stale : List Nat) (i : Nat) : Nat :=
  if i < tok.length then tok.getD i 0 else stale.getD i 0

/-- `coap_backend_input` (standalone variant): non-blocking receive and
token filtering.  `recvRet` is the value returned by `recv` (byte count
or -1), `parse` the outcome of `coap_packet_parse` on a received
datagram, `stale` the prior contents of the stack token buffer.
Mirrors the source exactly: the would-block test compares `recvRet`
itself against the EAGAIN/EWOULDBLOCK constants, and a datagram is
dropped only when the token length differs from 2 AND `memcmp` of the
first two buffer bytes against `next_token` differs. -/
def coap_backend_input (st : CoapState) (recvRet : Int)
    (parse : Option ParsedMsg) (stale : List Nat) : Int × List CoapEvt :=
  if recvRet = EAGAIN ∨ recvRet = EWOULDBLOCK then (0, [])
  else if recvRet < 0 then
    (-ESOCKTNOSUPPORT, coap_backend_notify_event st.observer .error)
  else if recvRet = 0 then (0, [])
  else
    match parse with
    | none => (-ESOCKTNOSUPPORT, coap_backend_notify_event st.observer .error)
    | some m =>
        let tokenLen := m.token.length
        let memcmpNe : Prop :=
          tokenBufByte m.token stale 0 ≠ st.nextToken % 256 ∨
          tokenBufByte m.token stale 1 ≠ st.nextToken / 256 % 256
        if tokenLen ≠ 2 ∧ memcmpNe then
          (0, [])
        else
          (0, [])

/-- `coap_backend_connect` (plaintext UDP branch): create the socket,
connect it, and on success overwrite `next_token` with
`sys_rand32_get()` — a 32-bit random truncated to u16 by the
assignment.  On failure the token is untouched. -/
def coap_backend_connect (st : CoapState) (socketRes : Int)
    (connectRes : Int) (errnoVal : Int) (rand : Nat) : Int × CoapState :=
  if socketRes < 0 then (-errnoVal, st)
  else if connectRes < 0 then (-errnoVal, st)
  else (0, { st with nextToken := rand % 65536 })

/-- `coap_backend_init`: only calls `server_resolve`; the
`event_handler` argument is never stored anywhere. -/
def coap_backend_init (st : CoapState) (_event_handler : Bool) (port : Nat)
    (lookup : Except Int (List Candidate)) : Int × CoapState :=
  match server_resolve port lookup with
  | (e, none) => (e, st)
  | (e, some a) => (e, { st with host := some a })

/-- The cloud-API `c_connect` of the CoAP backend: run
`coap_backend_init` then `coap_backend_connect`; on success deliver a
connected event immediately followed by a ready event through the
registered cloud handler. -/
def c_connect (st : CoapState) (port : Nat)
    (lookup : Except Int (List Candidate)) (socketRes connectRes : Int)
    (errnoVal : Int) (rand : Nat) : Int × CoapState × List CloudEvt :=
  let r := coap_backend_init st false port lookup
  if r.1 ≠ 0 then (r.1, r.2, [])
  else
    let r2 := coap_backend_connect r.2 socketRes connectRes errnoVal rand
    if r2.1 ≠ 0 then (r2.1, r2.2, [])
    else (0, r2.2, [.connected, .ready])

/-! ### MQTT backend (module statics of `mqtt_backend.c`) -/

/-- Module-static state of the stream backend: the identity buffer
`client_id_buf`, the derived `update_topic`, and whether
`module_evt_handler` is non-NULL. -/
structure MqttState where
  client_id_buf : List Nat
  update_topic : List Nat
  observer : Bool
  deriving DecidableEq, Repr

/-- State at program start: statics zero-initialized. -/
def mqttState0 : MqttState :=
  { client_id_buf := [], update_topic := [], observer := false }

/-- `snprintf(buf, bufSize, "%s", s)`: returns the would-be length of
the formatted string and writes at most `bufSize - 1` characters
(NUL-terminated, possibly truncated). -/
def snprintf_str (bufSize : Nat) (s : List Nat) : Nat × List Nat :=
  (s.length, s.take (bufSize - 1))

/-- `mqtt_backend_topics_populate`: format the configured static client
id into `client_id_buf` (buffer of CLIENT_ID_LEN_MAX + 1 bytes), fail
with -ENOMEM when the formatted length is ≥ CLIENT_ID_LEN_MAX; then
derive `update_topic` from `client_id_buf` under the same bound. -/
def mqtt_backend_topics_populate (maxLen : Nat) (staticId : List Nat)
    (st : MqttState) : Int × MqttState :=
  let r1 := snprintf_str (maxLen + 1) staticId
  let st1 := { st with client_id_buf := r1.2 }
  if r1.1 ≥ maxLen then (-ENOMEM, st1)
  else
    let r2 := snprintf_str (maxLen + 1) st1.client_id_buf
    let st2 := { st1 with update_topic := r2.2 }
    if r2.1 ≥ maxLen then (-ENOMEM, st2)
    else (0, st2)

/-- `mqtt_backend_init` (standalone variant): populate the topics; on
failure return the error without registering anything; on success
store the event handler as the module observer. -/
def mqtt_backend_init (maxLen : Nat) (staticId : List Nat)
    (event_handler : Bool) (st : MqttState) : Int × MqttState :=
  let r := mqtt_backend_topics_populate maxLen staticId st
  if r.1 ≠ 0 then r
  else (0, { r.2 with observer := event_handler })

/-- `mqtt_backend_notify_event`: deliver the event to the single
registered observer; a silent no-op when `module_evt_handler` is NULL. -/
def mqtt_backend_notify_event (observer : Bool) (e : MqttEvt) : List MqttEvt :=
  if observer then [e] else []

/-- `publish_get_payload`: refuse (with -EMSGSIZE) any declared payload
length larger than the payload buffer capacity before reading anything;
otherwise read exactly `length` bytes via
`mqtt_readall_publish_payload` (outcome `readRes`).  Second component:
number of payload bytes written into the buffer. -/
def publish_get_payload (capacity : Nat) (length : Nat) (readRes : Int) :
    Int × Nat :=
  if length > capacity then (-EMSGSIZE, 0)
  else (readRes, length)

/-- Inbound MQTT protocol events handed to `mqtt_evt_handler` by the
MQTT library. -/
inductive MqttProtoEvt where
  | connack (returnCode : Nat)
  | disconnect (result : Int)
  | publish (msgId : Nat) (payloadLen : Nat) (qos1 : Bool)
  | puback (msgId : Nat) (result : Int)
  | suback (msgId : Nat) (result : Int)
  | other
  deriving DecidableEq, Repr

/-- `mqtt_evt_handler` (standalone variant): events delivered to the
observer, paired with the message ids acknowledged by PUBACK.  On
CONNACK a connected notification is immediately followed by a ready
notification; a QoS-1 PUBLISH is acknowledged and then surfaced as
data-received, unless `publish_get_payload` failed. -/
def mqtt_evt_handler (observer : Bool) (capacity : Nat) (readRes : Int)
    (e : MqttProtoEvt) : List MqttEvt × List Nat :=
  match e with
  | .connack _ =>
      (mqtt_backend_notify_event observer .connected ++
       mqtt_backend_notify_event observer .ready, [])
  | .disconnect _ =>
      (mqtt_backend_notify_event observer .disconnected, [])
  | .publish msgId len qos1 =>
      let r := publish_get_payload capacity len readRes
      if r.1 ≠ 0 then ([], [])
      else
        let acks := if qos1 then [msgId] else []
        (mqtt_backend_notify_event observer .dataReceived, acks)
  | .puback _ _ => ([], [])
  | .suback _ _ => ([], [])
  | .other => ([], [])

/-! ### Theorems -/

/-- Claim C1 (code bug).  `coap_backend_send` does increment the stored
token by exactly one (258 becomes 259 = 0x0103, bytes [3, 1]), but a
reply carrying exactly that token is merely logged: `coap_backend_input`
returns 0 and delivers NO data-received event to the observer, and a
reply with a 2-byte token of entirely different bytes takes the very
same accepted path (the filter discards only when the length differs
from 2 AND the bytes differ, an `&&` where the spec's "or" requires
`||`). -/
theorem coap_token_roundtrip_code_bug :
    (coap_backend_send ⟨258, true, none⟩ [] [] 0 0 0 0 0 0 5).st.nextToken
      = 259 ∧
    (coap_backend_send ⟨258, true, none⟩ [] [] 0 0 0 0 0 0 5).pkt.map
        CoapPacket.token = some [3, 1] ∧
    coap_backend_input ⟨259, true, none⟩ 4
      (some { token := [3, 1], payload := [104, 105], code := 69 })
      [0, 0, 0, 0, 0, 0, 0, 0] = (0, []) ∧
    coap_backend_input ⟨259, true, none⟩ 4
      (some { token := [9, 9], payload := [104, 105], code := 69 })
      [0, 0, 0, 0, 0, 0, 0, 0] = (0, []) := by
  decide

/-- Claim C2 (code bug).  `broker_init` with IPv4 preference, handed an
IPv6 candidate followed by an IPv4 candidate, inspects only the first
candidate (the loop body ends in an unconditional break), sets no
broker address, and still returns 0; with the candidates in the
opposite order it returns the IPv4 address — so the result depends on
resolver order and a no-match is not reported as an error. -/
theorem broker_init_single_candidate_code_bug :
    broker_init AF_INET 1883
      (Except.ok [⟨AF_INET6, 28, 66⟩, ⟨AF_INET, 16, 44⟩]) = (0, none) ∧
    broker_init AF_INET 1883
      (Except.ok [⟨AF_INET, 16, 44⟩, ⟨AF_INET6, 28, 66⟩]) =
      (0, some ⟨AF_INET, 44, 1883⟩) := by
  decide

/-- Claim C3 (code bug).  A non-blocking `recv` with no pending
datagram returns -1 (with errno = EAGAIN), but the code compares the
return value itself against the EAGAIN constant (11), so the
would-block case falls into the socket-error branch:
`coap_backend_input` delivers an error event and returns
-ESOCKTNOSUPPORT instead of succeeding with zero events. -/
theorem coap_input_wouldblock_code_bug :
    coap_backend_input ⟨258, true, none⟩ (-1) none [] =
      (-ESOCKTNOSUPPORT, [CoapEvt.error]) := by
  decide

/-- Claim C9 (code bug).  `coap_backend_init`, called with a non-NULL
event handler, succeeds yet registers no observer (it only runs
`server_resolve` and discards the handler), so event delivery on the
datagram backend is always the no-op case; the MQTT half of the claim
holds: `mqtt_backend_init` stores the handler, and both notify
functions are silent no-ops when no observer is registered. -/
theorem coap_init_ignores_handler_code_bug :
    (coap_backend_init coapState0 true 5683
        (Except.ok [⟨AF_INET, 16, 44⟩])).1 = 0 ∧
    ((coap_backend_init coapState0 true 5683
        (Except.ok [⟨AF_INET, 16, 44⟩])).2).observer = false ∧
    coap_backend_notify_event false CoapEvt.ready = [] ∧
    (mqtt_backend_init 8 [97] true mqttState0).2.observer = true ∧
    mqtt_backend_notify_event false MqttEvt.ready = [] := by
  decide

/-- Claim C5 (confirmed).  For every declared payload length above the
payload buffer capacity, `publish_get_payload` fails with -EMSGSIZE
having read zero bytes; for every length at or below capacity it
proceeds to read the payload; and the number of bytes written never
exceeds the capacity. -/
theorem publish_payload_overflow_guard (capacity length : Nat)
    (readRes : Int) :
    (length > capacity →
      publish_get_payload capacity length readRes = (-EMSGSIZE, 0)) ∧
    (length ≤ capacity →
      publish_get_payload capacity length readRes = (readRes, length)) ∧
    (publish_get_payload capacity length readRes).2 ≤ capacity := by
  unfold publish_get_payload
  refine ⟨fun h => ?_, fun h => ?_, ?_⟩
  · simp [h]
  · simp [Nat.not_lt.mpr h]
  · split
    · simp
    · show length ≤ capacity
      omega

theorem publish_payload_overflow_guard_witness :
    publish_get_payload 3 5 0 = (-EMSGSIZE, 0) ∧
    publish_get_payload 3 2 0 = (0, 2) :=
  ⟨(publish_payload_overflow_guard 3 5 0).1 (by decide),
   (publish_payload_overflow_guard 3 2 0).2.1 (by decide)⟩

/-- Claim C6 (confirmed).  `coap_backend_ping` resets the stored token
to 0 regardless of its prior value, on every path including the error
paths (the reset precedes every fallible step), and whenever the
packet is constructed at all it is an empty confirmable message:
type CON, zero-length token, code 0, no options, no payload. -/
theorem coap_ping_resets_token (st : CoapState)
    (initRes sendRes errnoVal : Int) (msgId : Nat) :
    (coap_backend_ping st initRes sendRes errnoVal msgId).st.nextToken = 0 ∧
    (0 ≤ initRes →
      (coap_backend_ping st initRes sendRes errnoVal msgId).pkt =
        some { version := 1, ctype := .con, token := [], code := 0,
               msgId := msgId, uriPath := [], payload := [] }) := by
  unfold coap_backend_ping
  refine ⟨?_, fun h => ?_⟩
  · split <;> [skip; split] <;> rfl
  · rw [if_neg (by omega)]
    split <;> rfl

theorem coap_ping_resets_token_witness :
    (coap_backend_ping ⟨513, true, none⟩ 0 0 0 7).st.nextToken = 0 ∧
    (coap_backend_ping ⟨513, true, none⟩ 0 0 0 7).pkt =
      some { version := 1, ctype := .con, token := [], code := 0,
             msgId := 7, uriPath := [], payload := [] } :=
  ⟨(coap_ping_resets_token ⟨513, true, none⟩ 0 0 0 7).1,
   (coap_ping_resets_token ⟨513, true, none⟩ 0 0 0 7).2 (by decide)⟩

/-- Claim C10 (confirmed).  A successful `coap_backend_connect`
overwrites the stored token with the 32-bit random value truncated to
16 bits; the first `coap_backend_send` after that connect therefore
uses token (rand + 1) mod 2^16, and every send wraps the 16-bit token
by exactly one modulo 2^16, placing those two token bytes in the
packet whenever it is built. -/
theorem coap_connect_token_seed (st : CoapState)
    (socketRes connectRes errnoVal : Int) (rand : Nat)
    (txData resource : List Nat)
    (initRes optRes markerRes payloadRes sendRes e2 : Int) (msgId : Nat)
    (hs : 0 ≤ socketRes) (hc : 0 ≤ connectRes) :
    coap_backend_connect st socketRes connectRes errnoVal rand =
      (0, { st with nextToken := rand % 65536 }) ∧
    (coap_backend_send
        (coap_backend_connect st socketRes connectRes errnoVal rand).2
        txData resource initRes optRes markerRes payloadRes sendRes e2
        msgId).st.nextToken = (rand + 1) % 65536 ∧
    (∀ st2 : CoapState,
      (coap_backend_send st2 txData resource initRes optRes markerRes
          payloadRes sendRes e2 msgId).st.nextToken =
        (st2.nextToken + 1) % 65536 ∧
      ∀ p ∈ (coap_backend_send st2 txData resource initRes optRes markerRes
          payloadRes sendRes e2 msgId).pkt,
        p.token = u16Bytes ((st2.nextToken + 1) % 65536)) := by
  have hconn : coap_backend_connect st socketRes connectRes errnoVal rand =
      (0, { st with nextToken := rand % 65536 }) := by
    unfold coap_backend_connect
    rw [if_neg (by omega), if_neg (by omega)]
  have hsend : ∀ st2 : CoapState,
      (coap_backend_send st2 txData resource initRes optRes markerRes
          payloadRes sendRes e2 msgId).st.nextToken =
        (st2.nextToken + 1) % 65536 ∧
      ∀ p ∈ (coap_backend_send st2 txData resource initRes optRes markerRes
          payloadRes sendRes e2 msgId).pkt,
        p.token = u16Bytes ((st2.nextToken + 1) % 65536) := by
    intro st2
    unfold coap_backend_send
    refine ⟨?_, ?_⟩ <;> (repeat' split) <;> simp_all
  refine ⟨hconn, ?_, hsend⟩
  rw [hconn]
  rw [(hsend _).1]
  show (rand % 65536 + 1) % 65536 = (rand + 1) % 65536
  omega

theorem coap_connect_token_seed_witness :
    coap_backend_connect ⟨7, true, none⟩ 3 0 0 70000 =
      (0, ⟨70000 % 65536, true, none⟩) ∧
    (coap_backend_send
        (coap_backend_connect ⟨7, true, none⟩ 3 0 0 70000).2
        [1] [2] 0 0 0 0 0 0 9).st.nextToken = 70001 % 65536 :=
  ⟨(coap_connect_token_seed ⟨7, true, none⟩ 3 0 0 70000 [1] [2] 0 0 0 0 0 0 9
      (by decide) (by decide)).1,
   (coap_connect_token_seed ⟨7, true, none⟩ 3 0 0 70000 [1] [2] 0 0 0 0 0 0 9
      (by decide) (by decide)).2.1⟩

/-- Claim C7 (confirmed).  On the broker's CONNACK the stream backend
delivers exactly connected-then-ready to the registered observer with
nothing interleaved; no other inbound protocol event ever produces a
ready notification (so ready never precedes connected); and the
datagram backend's cloud `c_connect`, when resolve and connect
succeed, delivers exactly the pair connected-then-ready. -/
theorem connected_then_ready_pair (cap : Nat) (readRes : Int) (rc : Nat)
    (st : CoapState) (port : Nat) (cand : Candidate) (cands : List Candidate)
    (socketRes connectRes errnoVal : Int) (rand : Nat)
    (hs : 0 ≤ socketRes) (hc : 0 ≤ connectRes) :
    (mqtt_evt_handler true cap readRes (.connack rc)).1 =
      [.connected, .ready] ∧
    (∀ e : MqttProtoEvt,
      MqttEvt.ready ∈ (mqtt_evt_handler true cap readRes e).1 →
      (mqtt_evt_handler true cap readRes e).1 = [.connected, .ready]) ∧
    (c_connect st port (Except.ok (cand :: cands)) socketRes connectRes
        errnoVal rand).2.2 = [.connected, .ready] := by
  refine ⟨?_, ?_, ?_⟩
  · simp [mqtt_evt_handler, mqtt_backend_notify_event]
  · intro e
    cases e <;> simp [mqtt_evt_handler, mqtt_backend_notify_event]
    split <;> simp
  · simp [c_connect, coap_backend_init, server_resolve, coap_backend_connect,
          Int.not_lt.mpr hs, Int.not_lt.mpr hc]

theorem connected_then_ready_pair_witness :
    (mqtt_evt_handler true 8 0 (.connack 0)).1 =
      [MqttEvt.connected, MqttEvt.ready] ∧
    (c_connect coapState0 5683 (Except.ok [⟨AF_INET, 16, 44⟩]) 3 0 0
        99).2.2 = [CloudEvt.connected, CloudEvt.ready] :=
  ⟨(connected_then_ready_pair 8 0 0 coapState0 5683 ⟨AF_INET, 16, 44⟩ []
      3 0 0 99 (by decide) (by decide)).1,
   (connected_then_ready_pair 8 0 0 coapState0 5683 ⟨AF_INET, 16, 44⟩ []
      3 0 0 99 (by decide) (by decide)).2.2⟩

/-- Claim C4 counterexample.  A configured identifier of length exactly
equal to the configured maximum (here 4) does NOT exceed the maximum,
fits the MAX+1-byte buffer untruncated, yet `mqtt_backend_init` fails
with -ENOMEM, contradicting the claim that every identifier within the
bound succeeds. -/
theorem mqtt_init_length_cx :
    ([97, 98, 99, 100] : List Nat).length ≤ 4 ∧
    (mqtt_backend_init 4 [97, 98, 99, 100] true mqttState0).1 =
      -ENOMEM := by
  decide

/-- Claim C4 as amended.  `mqtt_backend_init` fails with -ENOMEM for
every identifier whose formatted length is greater than OR EQUAL to
the configured maximum — the guard is `>= MAX`, so the length-MAX
boundary case is also rejected — and on failure the update topic is
never written and no observer is registered; every identifier strictly
shorter than the maximum succeeds with the identity stored without
truncation. -/
theorem mqtt_init_length_bound (maxLen : Nat) (staticId : List Nat)
    (st : MqttState) :
    (maxLen ≤ staticId.length →
      mqtt_backend_init maxLen staticId true st =
        (-ENOMEM, { st with client_id_buf := staticId.take maxLen })) ∧
    (staticId.length < maxLen →
      mqtt_backend_init maxLen staticId true st =
        (0, { client_id_buf := staticId, update_topic := staticId,
              observer := true })) := by
  constructor
  · intro h
    have hne : (-ENOMEM : Int) ≠ 0 := by decide
    simp [mqtt_backend_init, mqtt_backend_topics_populate, snprintf_str,
          h, hne]
  · intro h
    have hle : staticId.length ≤ maxLen := Nat.le_of_lt h
    have ht2 : List.take maxLen staticId = staticId :=
      List.take_of_length_le hle
    simp [mqtt_backend_init, mqtt_backend_topics_populate, snprintf_str,
          ht2, hle, Nat.not_le.mpr h]

theorem mqtt_init_length_bound_witness :
    mqtt_backend_init 4 [97, 98] true mqttState0 =
      (0, { client_id_buf := [97, 98], update_topic := [97, 98],
            observer := true }) ∧
    mqtt_backend_init 4 [97, 98, 99, 100, 101] true mqttState0 =
      (-ENOMEM, { client_id_buf := [97, 98, 99, 100], update_topic := [],
                  observer := false }) :=
  ⟨(mqtt_init_length_bound 4 [97, 98] mqttState0).2 (by decide),
   (mqtt_init_length_bound 4 [97, 98, 99, 100, 101] mqttState0).1
      (by decide)⟩

/-- Claim C8 counterexample.  A received datagram that fails
`coap_packet_parse` does NOT make `coap_backend_input` return success
silently: the call returns -ESOCKTNOSUPPORT and delivers an error
event to the observer. -/
theorem coap_input_malformed_cx :
    (coap_backend_input ⟨0, true, none⟩ 4 none []).1 ≠ 0 ∧
    coap_backend_input ⟨0, true, none⟩ 4 none [] =
      (-ESOCKTNOSUPPORT, [CoapEvt.error]) := by
  decide

/-- Claim C8 as amended.  On every malformed inbound datagram (a
positive receive count whose parse fails) the standalone datagram
backend drops the packet but PROPAGATES the failure: it delivers an
error event to the registered observer and returns -ESOCKTNOSUPPORT
rather than success. -/
theorem coap_input_malformed_propagates (st : CoapState) (recvRet : Int)
    (stale : List Nat) (hpos : 0 < recvRet) (hne : recvRet ≠ EAGAIN) :
    coap_backend_input st recvRet none stale =
      (-ESOCKTNOSUPPORT, coap_backend_notify_event st.observer .error) := by
  unfold coap_backend_input
  rw [if_neg (by simp [EWOULDBLOCK, hne]), if_neg (by omega),
      if_neg (by omega)]

theorem coap_input_malformed_propagates_witness :
    coap_backend_input ⟨5, false, none⟩ 9 none [1] =
      (-ESOCKTNOSUPPORT, []) :=
  coap_input_malformed_propagates ⟨5, false, none⟩ 9 [1] (by decide)
    (by decide)

end FwIotPub
